import Mathlib

/-!
Verification of the DQDA collection-and-scoring core
(`agent/dqda/data_collectors/base_collector.py` and `agent/dqda/dqda_agent.py`).

Modelling conventions:
* Python floats are modelled as exact rationals (`ℚ`); the decimal literals of
  the source (0.35, 0.1, ...) are exact in this model.
* Python `round` is modelled by Mathlib's `round` (round to nearest); the two
  agree except at exact half-integers, which do not arise in any concrete
  input considered here.
* The dynamic values stored in a record's `structured_data` dictionary are
  modelled by the inductive type `PyVal` (Python truthiness and
  `isinstance(x, (int, float))` included; Python `bool` is a numeric type).
* Async effects are modelled by explicit data: the outcome of a raw fetch is
  an `Except` value, sleeps are recorded as a list of delay durations, and the
  wall-clock timestamp taken during a pipeline run is an explicit argument.
-/

namespace DQDA

/-- Dynamic Python value, as stored in `structured_data` dictionaries. -/
inductive PyVal where
  | pynone : PyVal
  | pybool : Bool → PyVal
  | pynum : ℚ → PyVal
  | pystr : String → PyVal
  | pydict : List (String × PyVal) → PyVal
  | pylist : List PyVal → PyVal

namespace PyVal

/-- Python truthiness of a dynamic value. -/
def truthy : PyVal → Bool
  | pynone => false
  | pybool b => b
  | pynum q => decide (q ≠ 0)
  | pystr s => decide (s ≠ "")
  | pydict entries => !entries.isEmpty
  | pylist xs => !xs.isEmpty

/-- Lookup in an association list modelling a Python dict (first match wins). -/
def lookupD (entries : List (String × PyVal)) (key : String) (dflt : PyVal) : PyVal :=
  match entries.find? (fun p => p.1 = key) with
  | some p => p.2
  | none => dflt

/-- Python `d.get(key)`, defaulting to `None`. -/
def lookupN (entries : List (String × PyVal)) (key : String) : PyVal :=
  lookupD entries key pynone

/-- Numeric view: `isinstance(v, (int, float))` succeeds on numbers and on
`bool` (a numeric subtype in Python, converting to 0 or 1). -/
def asNum : PyVal → Option ℚ
  | pynum q => some q
  | pybool b => some (if b then 1 else 0)
  | _ => none

end PyVal

/-- Enumeration of supported data sources (`DataSource` in the code). -/
inductive DataSource where
  | pitch_deck
  | whitepaper
  | website
  | tokenomics
  | founder_profile
deriving DecidableEq

/-- Standardized data point shared by all DQDA collectors (`DQDADataPoint`).
Timestamps are carried as opaque strings; `structured_data` is a Python dict
modelled as an association list of `PyVal`s. -/
structure DQDADataPoint where
  startup_name : String
  source_type : DataSource
  source_url : Option String := none
  raw_content : Option String := none
  structured_data : List (String × PyVal) := []
  collection_timestamp : String := ""
  confidence_score : ℚ := 0.5
  data_quality_indicators : List String := []
  processing_notes : List String := []
  errors : List String := []
  retry_count : ℕ := 0
  search_keywords : List String := []
  search_startup_name : Option String := none

/-- A raw item returned by a collector's `_collect_raw_data`, restricted to
the fields the base class inspects (`content`, `text`, `data`, `url`,
`source_url`, `link`, `metadata`, `title`, `collection_method`) plus the
remaining key/value pairs that survive into `structured_data`. Presence of a
field with a truthy value is what the Python code tests with `.get`. -/
structure RawData where
  content : Option String := none
  text : Option String := none
  data : Option String := none
  url : Option String := none
  source_url : Option String := none
  link : Option String := none
  metadata : Option PyVal := none
  title : Option String := none
  collection_method : Option String := none
  structured : List (String × PyVal) := []

/-- Truthiness of an optional string field, as Python's `raw_data.get(k)`. -/
def optTruthy : Option String → Bool
  | some s => s ≠ ""
  | none => false

/-- Truthiness of the optional metadata field. -/
def optValTruthy : Option PyVal → Bool
  | some v => v.truthy
  | none => false

/-- Static identity of one collector instance: class name, declared source
type and the retry/rate-limit configuration of `BaseCollector.__init__`. -/
structure Collector where
  name : String
  source_type : DataSource
  rate_limit_delay : ℚ := 1
  max_retries : ℕ := 3
  base_delay : ℚ := 1

/-- `BaseCollector._calculate_confidence_score`: base 0.5, plus 0.2 for
content or text, 0.1 each for a url, metadata and a title, capped at 1.0. -/
def calculate_confidence_score (raw : RawData) : ℚ :=
  let score : ℚ := 0.5
  let score := if optTruthy raw.content || optTruthy raw.text then score + 0.2 else score
  let score := if optTruthy raw.url || optTruthy raw.source_url then score + 0.1 else score
  let score := if optValTruthy raw.metadata then score + 0.1 else score
  let score := if optTruthy raw.title then score + 0.1 else score
  min score 1.0

/-- `BaseCollector._assess_data_quality`. -/
def assess_data_quality (raw : RawData) : List String :=
  (if optTruthy raw.content && decide ((raw.content.getD "").length > 100) then ["substantial_content"] else [])
    ++ (if optTruthy raw.url then ["has_source_url"] else [])
    ++ (if optValTruthy raw.metadata then ["has_metadata"] else [])
    ++ (if optTruthy raw.title then ["has_title"] else [])

/-- `BaseCollector._generate_processing_notes`. -/
def generate_processing_notes (c : Collector) (raw : RawData) : List String :=
  ["Collected via " ++ c.name]
    ++ (match raw.collection_method with
        | some m => if m ≠ "" then ["Method: " ++ m] else []
        | none => [])

/-- First truthy choice among optional string fields (Python `a or b or c`). -/
def orElseStr : List (Option String) → Option String
  | [] => none
  | o :: rest => if optTruthy o then o else orElseStr rest

/-- `BaseCollector._normalize_data`: builds the normalized data point for one
raw item (the `None`-on-internal-error path never fires in this model because
all field accesses are total). -/
def normalize_data (c : Collector) (raw : RawData) (startup_name : String)
    (keywords : List String) : Option DQDADataPoint :=
  some
    { startup_name := startup_name
      source_type := c.source_type
      source_url := orElseStr [raw.url, raw.source_url, raw.link]
      raw_content := orElseStr [raw.content, raw.text, raw.data]
      structured_data := raw.structured
      confidence_score := calculate_confidence_score raw
      data_quality_indicators := assess_data_quality raw
      search_keywords := keywords
      search_startup_name := some startup_name
      processing_notes := generate_processing_notes c raw }

/-- `BaseCollector._graceful_degradation`: a single low-confidence record
recording the failure. -/
def graceful_degradation (c : Collector) (startup_name : String)
    (keywords : List String) (error_msg : String) : List DQDADataPoint :=
  [{ startup_name := startup_name
     source_type := c.source_type
     confidence_score := 0.1
     errors := [error_msg]
     processing_notes := ["Graceful degradation for " ++ c.name]
     search_keywords := keywords
     search_startup_name := some startup_name }]

/-- `BaseCollector.collect_data`. The outcome of `_collect_raw_data` is passed
in as an `Except` value: `Except.error msg` models the fetch raising with
message `msg`. On success each raw item is normalized (failures to normalize
are skipped) and the result is truncated to `max_results`; on failure the
graceful-degradation record is returned instead. -/
def collect_data (c : Collector) (startup_name : String) (keywords : List String)
    (max_results : ℕ) (fetch : Except String (List RawData)) : List DQDADataPoint :=
  match fetch with
  | Except.error e => graceful_degradation c startup_name keywords e
  | Except.ok raw_data =>
      let normalized_data := raw_data.filterMap
        (fun item => normalize_data c item startup_name keywords)
      normalized_data.take max_results

/-- `BaseCollector._retry_with_backoff`, with the sleeps made explicit.
`f k` is the outcome of the k-th invocation of the wrapped function; the
result is the returned value (`none` when every attempt failed), the number
of invocations actually made, and the list of backoff delays slept, in
order. A delay of `base_delay * 2 ^ attempt` is slept only when
`attempt < max_retries - 1`, i.e. between consecutive attempts. -/
def retry_aux {α : Type} (f : ℕ → Except String α) (max_retries : ℕ)
    (base_delay : ℚ) (attempt : ℕ) : ℕ → Option α × ℕ × List ℚ
  | 0 => (none, attempt, [])
  | remaining + 1 =>
      match f attempt with
      | Except.ok a => (some a, attempt + 1, [])
      | Except.error _ =>
          if attempt < max_retries - 1 then
            let rest := retry_aux f max_retries base_delay (attempt + 1) remaining
            (rest.1, rest.2.1, base_delay * 2 ^ attempt :: rest.2.2)
          else
            (none, attempt + 1, [])

/-- `BaseCollector._retry_with_backoff` run from attempt 0 over
`range(max_retries)`. -/
def retry_with_backoff {α : Type} (c : Collector) (f : ℕ → Except String α) :
    Option α × ℕ × List ℚ :=
  retry_aux f c.max_retries c.base_delay 0 c.max_retries

/-! ### Scoring engine (`dqda_agent.py`) -/

/-- Sub-report returned by the market/competition/token scoring helpers. -/
structure SubReport where
  score : ℤ
  signals : List String
  summary : String

/-- Result of `_compute_investor_fit`. -/
structure InvestorFit where
  score : ℤ
  rating : String
  rationale : String

/-- Two-decimal rendering of a rational, standing in for Python's `f:.2f`
formatting (the exact digits never influence a score). -/
def formatQ2 (q : ℚ) : String :=
  let n : ℤ := round (q * 100)
  let sign := if n < 0 then "-" else ""
  let m := n.natAbs
  sign ++ toString (m / 100) ++ "." ++ (if m % 100 < 10 then "0" else "") ++ toString (m % 100)

/-- Per-founder-record score used by `_compute_founder_score`: the numeric
`overall_assessment.overall_score` when present, else the record's own
confidence score. -/
def founder_item_score (dp : DQDADataPoint) : ℚ :=
  match PyVal.lookupD dp.structured_data "overall_assessment" (PyVal.pydict []) with
  | PyVal.pydict a =>
      match (PyVal.lookupN a "overall_score").asNum with
      | some q => q
      | none => dp.confidence_score
  | _ => dp.confidence_score

/-- `DQDAAgent._compute_founder_score`. -/
def compute_founder_score (founders : List DQDADataPoint) : ℤ :=
  if founders.isEmpty then 0
  else
    let scores := founders.map founder_item_score
    let avg : ℚ := if scores.isEmpty then 0 else scores.sum / scores.length
    round (max 0 (min 1 avg) * 100)

/-- Whether one pitch-deck record has a truthy `sections.market_size` entry. -/
def pd_has_market_section (dp : DQDADataPoint) : Bool :=
  match PyVal.lookupD dp.structured_data "sections" (PyVal.pydict []) with
  | PyVal.pydict s => (PyVal.lookupN s "market_size").truthy
  | _ => false

/-- Numeric `quality_indicators.section_coverage` of one pitch-deck record. -/
def pd_section_coverage (dp : DQDADataPoint) : Option ℚ :=
  match PyVal.lookupD dp.structured_data "quality_indicators" (PyVal.pydict []) with
  | PyVal.pydict s => (PyVal.lookupN s "section_coverage").asNum
  | _ => none

/-- Whitepaper writing-quality composite of one record: the mean of the
numeric entries among the five quality keys, when any are present. -/
def wp_writing_quality (dp : DQDADataPoint) : Option ℚ :=
  match PyVal.lookupD dp.structured_data "writing_quality" (PyVal.pydict []) with
  | PyVal.pydict q =>
      let score_parts := ["reading_ease", "has_abstract", "has_references",
        "academic_language", "has_figures"].filterMap
          (fun key => (PyVal.lookupN q key).asNum)
      if score_parts.isEmpty then none
      else some (score_parts.sum / score_parts.length)
  | _ => none

/-- Company-information completeness of one website record: truthy values
over total entries (at least 1), when `company_information` is a dict. -/
def site_info_completeness_of (dp : DQDADataPoint) : Option ℚ :=
  match PyVal.lookupD dp.structured_data "company_information" (PyVal.pydict []) with
  | PyVal.pydict ci =>
      some ((ci.countP (fun p => p.2.truthy) : ℚ) / (max 1 ci.length : ℕ))
  | _ => none

/-- Fold accumulating the running maximum of an optional per-record metric,
as the Python loops do with `x = max(x, observed)`. -/
def max_metric (f : DQDADataPoint → Option ℚ) (l : List DQDADataPoint) : ℚ :=
  l.foldl (fun acc dp => match f dp with | some v => max acc v | none => acc) 0

/-- `DQDAAgent._compute_market_analysis`. -/
def compute_market_analysis (pitch_decks whitepapers websites : List DQDADataPoint) :
    SubReport :=
  let has_market_section := pitch_decks.any pd_has_market_section
  let section_coverage := max_metric pd_section_coverage pitch_decks
  let wp_quality := max_metric wp_writing_quality whitepapers
  let site_info_completeness := max_metric site_info_completeness_of websites
  let signals :=
    (if has_market_section then ["Pitch deck includes market sizing section"] else [])
      ++ (if section_coverage ≠ 0 then
            ["Pitch deck section coverage: " ++ formatQ2 section_coverage] else [])
      ++ (if wp_quality ≠ 0 then
            ["Whitepaper writing quality: " ++ formatQ2 wp_quality] else [])
      ++ (if site_info_completeness ≠ 0 then
            ["Website company info completeness: " ++ formatQ2 site_info_completeness] else [])
  let score : ℚ :=
    (if has_market_section then 0.45 else 0.15)
      + min section_coverage 1.0 * 0.25
      + min site_info_completeness 1.0 * 0.2
      + min wp_quality 1.0 * 0.1
  let score := max 0.0 (min 1.0 score)
  { score := round (score * 100)
    signals := signals
    summary := "Heuristic market signal score derived from pitch deck/website/whitepaper coverage." }

/-- Whether one pitch-deck record has a truthy `sections.competitive_advantage`. -/
def pd_has_competitive_section (dp : DQDADataPoint) : Bool :=
  match PyVal.lookupD dp.structured_data "sections" (PyVal.pydict []) with
  | PyVal.pydict s => (PyVal.lookupN s "competitive_advantage").truthy
  | _ => false

/-- Number of `crawled_pages` entries of one website record. -/
def site_crawled_pages (dp : DQDADataPoint) : Option ℕ :=
  match PyVal.lookupD dp.structured_data "crawled_pages" (PyVal.pydict []) with
  | PyVal.pydict cp => some cp.length
  | _ => none

/-- `DQDAAgent._compute_competition`. -/
def compute_competition (pitch_decks websites : List DQDADataPoint) : SubReport :=
  let has_competitive_section := pitch_decks.any pd_has_competitive_section
  let pages_crawled : ℕ := websites.foldl
    (fun acc dp => match site_crawled_pages dp with | some n => max acc n | none => acc) 0
  let signals :=
    (if has_competitive_section then ["Pitch deck discusses competitive advantage"] else [])
      ++ (if pages_crawled ≠ 0 then ["Website pages crawled: " ++ toString pages_crawled] else [])
  let score : ℚ := (if has_competitive_section then 0.6 else 0.3)
    + min ((pages_crawled : ℚ) / 10) 1.0 * 0.4
  let score := max 0.0 (min 1.0 score)
  { score := round (score * 100)
    signals := signals
    summary := "Competition analysis is inferred from presence of competitive sections and website coverage." }

/-- Per-token-record quality used by `_compute_token_utility`: the numeric
`quality_score` when present, else the record's confidence score. -/
def token_item_quality (dp : DQDADataPoint) : ℚ :=
  match (PyVal.lookupN dp.structured_data "quality_score").asNum with
  | some q => q
  | none => dp.confidence_score

/-- `DQDAAgent._compute_token_utility`. -/
def compute_token_utility (tokens : List DQDADataPoint) : SubReport :=
  if tokens.isEmpty then
    { score := 0
      signals := ["No tokenomics data available"]
      summary := "Token utility score could not be computed due to missing token data." }
  else
    let quality_scores := tokens.map token_item_quality
    let avg : ℚ := if quality_scores.isEmpty then 0 else quality_scores.sum / quality_scores.length
    let avg := max 0.0 (min 1.0 avg)
    { score := round (avg * 100)
      signals := ["Derived from tokenomics collector quality/confidence"]
      summary := "Heuristic token utility proxy based on available tokenomics data quality." }

/-- `DQDAAgent._identify_weaknesses`: four strict-threshold score rules
followed by five empty-collection rules, appended in source order. -/
def identify_weaknesses (founder_score : ℤ)
    (market_analysis competition token_utility : SubReport)
    (pitch_deck whitepaper website tokenomics founders : List DQDADataPoint) :
    List String :=
  (if founder_score < 40 then ["Low founder/team signal score"] else [])
    ++ (if market_analysis.score < 40 then
          ["Weak market evidence (limited market sizing / positioning signals)"] else [])
    ++ (if competition.score < 40 then
          ["Limited competitive differentiation evidence"] else [])
    ++ (if token_utility.score < 40 then
          ["Token utility/quality signal is weak or missing"] else [])
    ++ (if pitch_deck.isEmpty then ["No pitch deck data collected"] else [])
    ++ (if whitepaper.isEmpty then ["No whitepaper data collected"] else [])
    ++ (if website.isEmpty then ["No website crawl data collected"] else [])
    ++ (if tokenomics.isEmpty then ["No tokenomics data collected"] else [])
    ++ (if founders.isEmpty then ["No founder background data collected"] else [])

/-- Rating tier applied to the rounded composite score. -/
def rating_of (score : ℤ) : String :=
  if score ≥ 75 then "strong" else if score ≥ 55 then "moderate" else "weak"

/-- `DQDAAgent._compute_investor_fit`. -/
def compute_investor_fit (founder_score : ℤ)
    (market_score competition_score token_score : ℚ)
    (weaknesses : List String) : InvestorFit :=
  let normalized : ℚ := (founder_score : ℚ) / 100 * 0.35
    + market_score / 100 * 0.3
    + competition_score / 100 * 0.15
    + token_score / 100 * 0.2
  let penalty : ℚ := min ((weaknesses.length : ℚ) * 0.02) 0.2
  let normalized := max 0.0 (min 1.0 (normalized - penalty))
  let score : ℤ := round (normalized * 100)
  { score := score
    rating := rating_of score
    rationale := "Weighted composite of founder/market/competition/token signals with a small penalty for flagged weaknesses." }

/-! ### Orchestrator (`DQDAAgent.run_full_pipeline`) -/

/-- The fan-in step applied to one collector's outcome: the gathered value on
success, and an empty result list when the collector raised. -/
def settle_outcome : Except String (List DQDADataPoint) → List DQDADataPoint
  | Except.ok points => points
  | Except.error _ => []

/-- The consolidated collector-name-to-record-list map built from the five
gathered outcomes, in task-insertion order. -/
def collect_results (pd_o wp_o ws_o tk_o fd_o : Except String (List DQDADataPoint)) :
    List (String × List DQDADataPoint) :=
  [("pitch_deck", settle_outcome pd_o),
   ("whitepaper", settle_outcome wp_o),
   ("website", settle_outcome ws_o),
   ("tokenomics", settle_outcome tk_o),
   ("founders", settle_outcome fd_o)]

/-- The consolidated report of `run_full_pipeline`. `data_points` keeps the
records themselves; the code serializes each via the field-for-field
(injective) `to_dict`. -/
structure Report where
  startup_name : String
  keywords : List String
  collection_timestamp : String
  founder_score : ℤ
  market_analysis : SubReport
  competition : SubReport
  token_utility : SubReport
  weaknesses : List String
  investor_fit : InvestorFit
  data_points : List (String × List DQDADataPoint)

/-- `DQDAAgent.run_full_pipeline`, given the five gathered collector
outcomes (`Except.error` models a collector task that raised) and the
wall-clock timestamp `now` read while building the report. -/
def run_full_pipeline (startup_name : String) (keywords : List String) (now : String)
    (pd_o wp_o ws_o tk_o fd_o : Except String (List DQDADataPoint)) : Report :=
  let collected := collect_results pd_o wp_o ws_o tk_o fd_o
  let pitch_deck := settle_outcome pd_o
  let whitepaper := settle_outcome wp_o
  let website := settle_outcome ws_o
  let tokenomics := settle_outcome tk_o
  let founders := settle_outcome fd_o
  let founder_score := compute_founder_score founders
  let market_analysis := compute_market_analysis pitch_deck whitepaper website
  let competition := compute_competition pitch_deck website
  let token_utility := compute_token_utility tokenomics
  let weaknesses := identify_weaknesses founder_score market_analysis competition
    token_utility pitch_deck whitepaper website tokenomics founders
  let investor_fit := compute_investor_fit founder_score
    (market_analysis.score : ℚ) (competition.score : ℚ) (token_utility.score : ℚ)
    weaknesses
  { startup_name := startup_name
    keywords := keywords
    collection_timestamp := now
    founder_score := founder_score
    market_analysis := market_analysis
    competition := competition
    token_utility := token_utility
    weaknesses := weaknesses
    investor_fit := investor_fit
    data_points := collected }

/-- A concrete collector configuration with the constructor defaults of
`BaseCollector.__init__` (max_retries 3, base_delay 1.0). -/
def some_collector : Collector :=
  { name := "TokenomicsCollector", source_type := DataSource.tokenomics }

/-! ### Theorems -/

/-- C2: a collector whose raw-fetch step raises never propagates the
exception: `collect_data` returns exactly one degraded record, with
confidence 0.1, a non-empty error list holding the failure message, and a
processing note naming the collector. -/
theorem failing_collector_yields_single_degraded_record
    (c : Collector) (startup_name : String) (keywords : List String)
    (max_results : ℕ) (msg : String) :
    ∃ dp : DQDADataPoint,
      collect_data c startup_name keywords max_results (Except.error msg) = [dp] ∧
      dp.confidence_score = 0.1 ∧
      dp.errors = [msg] ∧
      dp.errors ≠ [] ∧
      dp.processing_notes = ["Graceful degradation for " ++ c.name] ∧
      (collect_data c startup_name keywords max_results (Except.error msg)).length = 1 := by
  refine ⟨_, rfl, rfl, rfl, by simp, rfl, rfl⟩

/-- C4: the fan-in map always has exactly the five registered collector
keys, each key's record list is a function of that collector's own outcome
alone, a raised outcome becomes the empty list, and a successful outcome is
passed through unchanged; the pipeline's report carries this map. -/
theorem fan_in_tolerates_individual_failure
    (o1 o2 o3 o4 o5 : Except String (List DQDADataPoint)) (e : String)
    (l : List DQDADataPoint) (startup_name : String) (keywords now : String) :
    (collect_results o1 o2 o3 o4 o5).map Prod.fst
        = ["pitch_deck", "whitepaper", "website", "tokenomics", "founders"] ∧
    (collect_results o1 o2 o3 o4 o5).length = 5 ∧
    collect_results o1 o2 o3 o4 o5 =
      [("pitch_deck", settle_outcome o1),
       ("whitepaper", settle_outcome o2),
       ("website", settle_outcome o3),
       ("tokenomics", settle_outcome o4),
       ("founders", settle_outcome o5)] ∧
    settle_outcome (Except.error e) = [] ∧
    settle_outcome (Except.ok l) = l ∧
    (run_full_pipeline startup_name [keywords] now o1 o2 o3 o4 o5).data_points
        = collect_results o1 o2 o3 o4 o5 := by
  exact ⟨rfl, rfl, rfl, rfl, rfl, rfl⟩

/-- C10: the maximum-result cap is enforced only on the success path; the
graceful-degradation record is returned unconditionally, so a failing
collector with a cap of 0 still produces one record, exceeding the cap. -/
theorem result_cap_applies_only_on_success
    (c : Collector) (startup_name : String) (keywords : List String)
    (max_results : ℕ) (raw : List RawData) (msg : String) :
    (collect_data c startup_name keywords max_results (Except.ok raw)).length ≤ max_results ∧
    (collect_data c startup_name keywords 0 (Except.error msg)).length = 1 ∧
    ¬ ((collect_data c startup_name keywords 0 (Except.error msg)).length ≤ 0) := by
  refine ⟨?_, rfl, by simp [collect_data, graceful_degradation]⟩
  simp [collect_data]

/-- Composite investor-fit score written exactly as the specification words
it: weighted sum of the four normalized sub-scores, minus the capped
weakness penalty, clamped to the unit interval, scaled and rounded. -/
def spec_investor_fit_score (founder market competition token : ℚ)
    (weaknessCount : ℕ) : ℤ :=
  round (max 0 (min 1 (founder / 100 * 0.35 + market / 100 * 0.30
    + competition / 100 * 0.15 + token / 100 * 0.20
    - min ((weaknessCount : ℚ) * 0.02) 0.20)) * 100)

/-- Tier characterization of `rating_of`: closed, ordered, non-overlapping
threshold bands on the rounded composite score. -/
lemma rating_of_iff (s : ℤ) :
    (rating_of s = "strong" ↔ 75 ≤ s) ∧
    (rating_of s = "moderate" ↔ 55 ≤ s ∧ s ≤ 74) ∧
    (rating_of s = "weak" ↔ s ≤ 54) := by
  unfold rating_of
  split_ifs with h1 h2 <;> refine ⟨?_, ?_, ?_⟩ <;> simp <;> omega

/-- C1: the composite investor-fit score equals the specification's
round-clamped weighted formula with the capped weakness penalty, and the
rating tier bands are exactly strong on 75 and above, moderate on 55 to 74,
weak below, with the stated boundary values. -/
theorem investor_fit_formula_and_tiers (f : ℤ) (m c t : ℚ) (ws : List String)
    (_hf : 0 ≤ f ∧ f ≤ 100) (_hm : 0 ≤ m ∧ m ≤ 100)
    (_hc : 0 ≤ c ∧ c ≤ 100) (_ht : 0 ≤ t ∧ t ≤ 100) :
    (compute_investor_fit f m c t ws).score
        = spec_investor_fit_score (f : ℚ) m c t ws.length ∧
    ((compute_investor_fit f m c t ws).rating = "strong"
        ↔ 75 ≤ (compute_investor_fit f m c t ws).score) ∧
    ((compute_investor_fit f m c t ws).rating = "moderate"
        ↔ 55 ≤ (compute_investor_fit f m c t ws).score
            ∧ (compute_investor_fit f m c t ws).score ≤ 74) ∧
    ((compute_investor_fit f m c t ws).rating = "weak"
        ↔ (compute_investor_fit f m c t ws).score ≤ 54) ∧
    rating_of 75 = "strong" ∧ rating_of 74 = "moderate" ∧
    rating_of 55 = "moderate" ∧ rating_of 54 = "weak" := by
  have hscore : (compute_investor_fit f m c t ws).score
      = spec_investor_fit_score (f : ℚ) m c t ws.length := by
    simp only [compute_investor_fit, spec_investor_fit_score]
    norm_num
  have hrating : (compute_investor_fit f m c t ws).rating
      = rating_of (compute_investor_fit f m c t ws).score := rfl
  refine ⟨hscore, ?_, ?_, ?_, by decide, by decide, by decide, by decide⟩
  · rw [hrating]; exact (rating_of_iff _).1
  · rw [hrating]; exact (rating_of_iff _).2.1
  · rw [hrating]; exact (rating_of_iff _).2.2

/-- C1 witness: the hypotheses hold at sub-scores 76, 87, 70, 90 with no
weaknesses, and the formula equality follows from the theorem there. -/
theorem investor_fit_formula_and_tiers_instance :
    ((0:ℤ) ≤ 76 ∧ (76:ℤ) ≤ 100) ∧
    (compute_investor_fit 76 87 70 90 []).score
      = spec_investor_fit_score 76 87 70 90 0 := by
  refine ⟨by norm_num, ?_⟩
  have h := (investor_fit_formula_and_tiers 76 87 70 90 []
    (by norm_num) (by norm_num) (by norm_num) (by norm_num)).1
  simpa using h

/-- Folding max over an accumulated seed equals hoisting the seed out of a
right fold of max. -/
lemma foldr_max_seed (L : List ℚ) : ∀ a v : ℚ,
    L.foldr max (max a v) = max v (L.foldr max a) := by
  intro a v
  induction L with
  | nil => exact max_comm a v
  | cons w L ih =>
      simp only [List.foldr_cons, ih]
      rw [max_left_comm]

/-- The running-maximum fold of the Python loops, rewritten as a right fold
of max over the observed metrics. -/
lemma max_metric_foldr (f : DQDADataPoint → Option ℚ) :
    ∀ (l : List DQDADataPoint) (a : ℚ),
      l.foldl (fun acc dp => match f dp with | some v => max acc v | none => acc) a
        = (l.filterMap f).foldr max a := by
  intro l
  induction l with
  | nil => intro a; rfl
  | cons dp l ih =>
      intro a
      simp only [List.foldl_cons, List.filterMap_cons]
      cases h : f dp with
      | none => exact ih a
      | some v =>
          simp only [List.foldr_cons, ih (max a v), foldr_max_seed]

/-- `max_metric` is the maximum of the observed metrics, seeded at 0. -/
lemma max_metric_eq (f : DQDADataPoint → Option ℚ) (l : List DQDADataPoint) :
    max_metric f l = (l.filterMap f).foldr max 0 :=
  max_metric_foldr f l 0

/-- Closed form of `retry_aux` on a permanently failing fetch: every
attempt up to the cap is made, no value is produced, and one backoff delay
of `b * 2 ^ attempt` is slept per gap between consecutive attempts. -/
lemma retry_aux_all_fail {α : Type} (f : ℕ → Except String α) (M : ℕ) (b : ℚ)
    (hfail : ∀ k, ∃ e, f k = Except.error e) :
    ∀ (remaining attempt : ℕ), attempt + remaining = M →
      retry_aux f M b attempt remaining =
        (none, M, (List.range (remaining - 1)).map (fun k => b * 2 ^ (attempt + k))) := by
  intro remaining
  induction remaining with
  | zero =>
      intro attempt h
      obtain rfl : attempt = M := by omega
      rfl
  | succ r ih =>
      intro attempt h
      obtain ⟨e, he⟩ := hfail attempt
      simp only [retry_aux, he]
      rcases Nat.eq_zero_or_pos r with hr | hr
      · subst hr
        have hnot : ¬ attempt < M - 1 := by omega
        rw [if_neg hnot]
        obtain rfl : M = attempt + 1 := by omega
        rfl
      · have hlt : attempt < M - 1 := by omega
        rw [if_pos hlt, ih (attempt + 1) (by omega)]
        simp only [Nat.add_sub_cancel]
        have hrange : List.range r = 0 :: List.map Nat.succ (List.range (r - 1)) := by
          rw [← List.range_succ_eq_map]
          congr 1
          omega

        rw [hrange, List.map_cons, List.map_map]
        have hfun : ((fun k => b * 2 ^ (attempt + k)) ∘ Nat.succ)
            = (fun k => b * 2 ^ (attempt + 1 + k)) := by
          funext k
          have hk : attempt + Nat.succ k = attempt + 1 + k := by omega
          simp [Function.comp, hk]
        rw [hfun]
        norm_num

/-- C3 counterexample: with the default configuration (3 attempts, base
delay 1.0) and a permanently failing fetch, the delays actually slept are
1 and 2 only; no third delay of 4 is slept after the final attempt, so the
claimed schedule for k = 0, 1, 2 is not what the code does. -/
theorem retry_claimed_delay_schedule_false :
    (retry_with_backoff some_collector
        (fun _ => (Except.error "boom" : Except String Unit))).2.2 = [1, 2] ∧
    ((1 : ℚ), (2 : ℚ)) = (1 * 2 ^ 0, 1 * 2 ^ 1) ∧
    (retry_with_backoff some_collector
        (fun _ => (Except.error "boom" : Except String Unit))).2.2
      ≠ [1 * 2 ^ 0, 1 * 2 ^ 1, 1 * 2 ^ 2] := by
  have h := retry_aux_all_fail (fun _ => (Except.error "boom" : Except String Unit))
    3 1 (fun _ => ⟨"boom", rfl⟩) 3 0 (by omega)
  have h2 : (retry_with_backoff some_collector
      (fun _ => (Except.error "boom" : Except String Unit))).2.2 = [1, 2] := by
    rw [retry_with_backoff,
      show some_collector.max_retries = 3 from rfl,
      show some_collector.base_delay = 1 from rfl, h]
    norm_num [List.range_succ]
  refine ⟨h2, by norm_num, ?_⟩
  rw [h2]
  norm_num

/-- C3 amended: a permanently failing fetch is attempted exactly
`max_retries` times (default 3), and the backoff delays slept are
`base_delay * 2 ^ k` for k ranging over the gaps between consecutive
attempts only, i.e. k = 0, ..., max_retries - 2. -/
theorem retry_exhausts_attempts_with_backoff {α : Type} (c : Collector)
    (f : ℕ → Except String α) (hfail : ∀ k, ∃ e, f k = Except.error e) :
    retry_with_backoff c f =
      (none, c.max_retries,
        (List.range (c.max_retries - 1)).map (fun k => c.base_delay * 2 ^ k)) := by
  have h := retry_aux_all_fail f c.max_retries c.base_delay hfail c.max_retries 0 (by omega)
  simpa [retry_with_backoff] using h

/-- C3 witness: the amended theorem applied to the default configuration
and the constantly failing fetch gives 3 attempts and slept delays 1, 2. -/
theorem retry_exhausts_attempts_witness :
    (∀ k : ℕ, ∃ e, (fun _ => (Except.error "boom" : Except String Unit)) k
        = Except.error e) ∧
    retry_with_backoff some_collector
        (fun _ => (Except.error "boom" : Except String Unit))
      = (none, 3, [1, 2]) := by
  refine ⟨fun k => ⟨"boom", rfl⟩, ?_⟩
  have h := retry_exhausts_attempts_with_backoff some_collector
    (fun _ => (Except.error "boom" : Except String Unit))
    (fun k => ⟨"boom", rfl⟩)
  rw [h]
  norm_num [some_collector, List.range_succ]

/-- C5: every confidence score produced by the core lies in the unit
interval: the per-item score of `_calculate_confidence_score` is clamped at
1 and starts from 0.5, and every record returned by `collect_data` — via
normalization or via graceful degradation — satisfies the bound. -/
theorem confidence_scores_within_unit_interval
    (raw : RawData) (c : Collector) (startup_name : String)
    (keywords : List String) (max_results : ℕ)
    (fetch : Except String (List RawData)) :
    (0 ≤ calculate_confidence_score raw ∧ calculate_confidence_score raw ≤ 1) ∧
    ∀ dp ∈ collect_data c startup_name keywords max_results fetch,
      0 ≤ dp.confidence_score ∧ dp.confidence_score ≤ 1 := by
  have hconf : ∀ r : RawData,
      0 ≤ calculate_confidence_score r ∧ calculate_confidence_score r ≤ 1 := by
    intro r
    simp only [calculate_confidence_score]
    constructor
    · split_ifs <;> norm_num
    · exact le_trans (min_le_right _ _) (by norm_num)
  refine ⟨hconf raw, ?_⟩
  intro dp hdp
  cases fetch with
  | error e =>
      simp only [collect_data, graceful_degradation, List.mem_singleton] at hdp
      subst hdp
      norm_num
  | ok raw_data =>
      simp only [collect_data] at hdp
      have hdp' := List.mem_of_mem_take hdp
      obtain ⟨item, _, hitem⟩ := List.mem_filterMap.mp hdp'
      simp only [normalize_data, Option.some.injEq] at hitem
      subst hitem
      simpa using hconf item

/-- C5 witness: the degraded record of a failed collection is a member of
the returned list and its confidence 0.1 satisfies the bounds. -/
def degraded_point : DQDADataPoint :=
  { startup_name := "Acme"
    source_type := DataSource.tokenomics
    confidence_score := 0.1
    errors := ["boom"]
    processing_notes := ["Graceful degradation for TokenomicsCollector"]
    search_keywords := []
    search_startup_name := some "Acme" }

/-- C5 witness: the bound instantiated on the degraded record of a failing
run with the default collector. -/
theorem confidence_scores_within_unit_interval_instance :
    (degraded_point ∈ collect_data some_collector "Acme" [] 5 (Except.error "boom")) ∧
    0 ≤ degraded_point.confidence_score ∧ degraded_point.confidence_score ≤ 1 := by
  have hmem : degraded_point ∈
      collect_data some_collector "Acme" [] 5 (Except.error "boom") := by
    simp [collect_data, graceful_degradation, degraded_point, some_collector]
  exact ⟨hmem, (confidence_scores_within_unit_interval {} some_collector "Acme" [] 5
    (Except.error "boom")).2 degraded_point hmem⟩

/-- Counting inside a conditional singleton distributes over the guard. -/
lemma count_ite_general (c : Prop) [Decidable c] (a b : String) :
    List.count a (if c then [b] else []) = if c then List.count a [b] else 0 := by
  split_ifs <;> rfl

/-- C6: each of the four low-score weaknesses appears exactly once iff its
score is strictly below 40 (so 40 emits nothing and 39 emits one), and each
of the five no-data weaknesses appears exactly once iff that collector's
result list is empty, independently of the scores. -/
theorem weakness_rules_characterized (fs : ℤ) (ma comp tu : SubReport)
    (pd wp ws tk fd : List DQDADataPoint) :
    ((identify_weaknesses fs ma comp tu pd wp ws tk fd).count
        "Low founder/team signal score" = if fs < 40 then 1 else 0) ∧
    ((identify_weaknesses fs ma comp tu pd wp ws tk fd).count
        "Weak market evidence (limited market sizing / positioning signals)"
          = if ma.score < 40 then 1 else 0) ∧
    ((identify_weaknesses fs ma comp tu pd wp ws tk fd).count
        "Limited competitive differentiation evidence"
          = if comp.score < 40 then 1 else 0) ∧
    ((identify_weaknesses fs ma comp tu pd wp ws tk fd).count
        "Token utility/quality signal is weak or missing"
          = if tu.score < 40 then 1 else 0) ∧
    ((identify_weaknesses fs ma comp tu pd wp ws tk fd).count
        "No pitch deck data collected" = if pd.isEmpty then 1 else 0) ∧
    ((identify_weaknesses fs ma comp tu pd wp ws tk fd).count
        "No whitepaper data collected" = if wp.isEmpty then 1 else 0) ∧
    ((identify_weaknesses fs ma comp tu pd wp ws tk fd).count
        "No website crawl data collected" = if ws.isEmpty then 1 else 0) ∧
    ((identify_weaknesses fs ma comp tu pd wp ws tk fd).count
        "No tokenomics data collected" = if tk.isEmpty then 1 else 0) ∧
    ((identify_weaknesses fs ma comp tu pd wp ws tk fd).count
        "No founder background data collected" = if fd.isEmpty then 1 else 0) := by
  refine ⟨?_, ?_, ?_, ?_, ?_, ?_, ?_, ?_, ?_⟩ <;>
    simp [identify_weaknesses, List.count_append, count_ite_general,
      List.count_cons, List.count_nil]

/-- Whether any pitch-deck record carries a market-sizing section, written
as the specification words it. -/
def spec_has_market_sizing (pitch_decks : List DQDADataPoint) : Bool :=
  pitch_decks.any pd_has_market_section

/-- Maximum observed pitch-deck section-coverage metric, per the spec. -/
def spec_max_section_coverage (pitch_decks : List DQDADataPoint) : ℚ :=
  (pitch_decks.filterMap pd_section_coverage).foldr max 0

/-- Maximum observed website company-information completeness, per the spec. -/
def spec_max_site_completeness (websites : List DQDADataPoint) : ℚ :=
  (websites.filterMap site_info_completeness_of).foldr max 0

/-- Maximum observed whitepaper writing-quality composite, per the spec. -/
def spec_max_wp_quality (whitepapers : List DQDADataPoint) : ℚ :=
  (whitepapers.filterMap wp_writing_quality).foldr max 0

/-- Market-analysis score written exactly as the specification words it:
baseline 0.45 or 0.15 for market sizing, plus the capped maxima weighted by
0.25, 0.2 and 0.1, clamped to the unit interval, scaled and rounded. -/
def spec_market_score (pitch_decks whitepapers websites : List DQDADataPoint) : ℤ :=
  round (max 0 (min 1 ((if spec_has_market_sizing pitch_decks then 0.45 else 0.15)
    + min (spec_max_section_coverage pitch_decks) 1 * 0.25
    + min (spec_max_site_completeness websites) 1 * 0.2
    + min (spec_max_wp_quality whitepapers) 1 * 0.1)) * 100)

/-- C7: the market-analysis score computed by the running-state loops of
the code equals the specification's additive formula over the per-record
observations. -/
theorem market_analysis_matches_spec_formula
    (pitch_decks whitepapers websites : List DQDADataPoint) :
    (compute_market_analysis pitch_decks whitepapers websites).score
      = spec_market_score pitch_decks whitepapers websites := by
  simp only [compute_market_analysis, spec_market_score, spec_has_market_sizing,
    spec_max_section_coverage, spec_max_site_completeness, spec_max_wp_quality,
    max_metric_eq]
  norm_num

/-- C8 scenario: the pitch-deck record with a market-sizing section and
section coverage 0.8. -/
def c8_pitch_deck : DQDADataPoint :=
  { startup_name := "DemoChain"
    source_type := DataSource.pitch_deck
    structured_data :=
      [("sections", PyVal.pydict [("market_size", PyVal.pystr "Large addressable market")]),
       ("quality_indicators", PyVal.pydict [("section_coverage", PyVal.pynum 0.8)])] }

/-- C8 scenario: the whitepaper record with writing-quality composite 0.7. -/
def c8_whitepaper : DQDADataPoint :=
  { startup_name := "DemoChain"
    source_type := DataSource.whitepaper
    structured_data :=
      [("writing_quality", PyVal.pydict [("reading_ease", PyVal.pynum 0.7)])] }

/-- C8 scenario: the website record with 3 of 3 company-information fields
populated and one crawled page. -/
def c8_website : DQDADataPoint :=
  { startup_name := "DemoChain"
    source_type := DataSource.website
    structured_data :=
      [("company_information", PyVal.pydict
          [("about", PyVal.pystr "About page"),
           ("team", PyVal.pystr "Team page"),
           ("contact", PyVal.pystr "Contact page")]),
       ("crawled_pages", PyVal.pydict [("home", PyVal.pystr "html")])] }

/-- C8 scenario: the token record with quality score 0.9. -/
def c8_token : DQDADataPoint :=
  { startup_name := "DemoChain"
    source_type := DataSource.tokenomics
    structured_data := [("quality_score", PyVal.pynum 0.9)] }

/-- C8 scenario: the founder record with overall assessment score 0.76. -/
def c8_founder : DQDADataPoint :=
  { startup_name := "DemoChain"
    source_type := DataSource.founder_profile
    structured_data :=
      [("overall_assessment", PyVal.pydict [("overall_score", PyVal.pynum 0.76)])] }

/-- C8 counterexample: on the stated scenario the market-analysis score is
92, not 87 — the four stated signal contributions sum to
0.45 + 0.2 + 0.2 + 0.07 = 0.92. -/
theorem end_to_end_market_score_not_87 :
    (compute_market_analysis [c8_pitch_deck] [c8_whitepaper] [c8_website]).score = 92 ∧
    (compute_market_analysis [c8_pitch_deck] [c8_whitepaper] [c8_website]).score ≠ 87 := by
  have h : (compute_market_analysis [c8_pitch_deck] [c8_whitepaper] [c8_website]).score
      = 92 := by
    simp [compute_market_analysis, c8_pitch_deck, c8_whitepaper, c8_website,
      max_metric, pd_has_market_section, pd_section_coverage, wp_writing_quality,
      site_info_completeness_of, PyVal.lookupD, PyVal.lookupN, PyVal.asNum,
      PyVal.truthy, List.find?]
    norm_num [round_eq]
  exact ⟨h, by rw [h]; norm_num⟩

/-- C8 amended: on the stated scenario the scoring engine yields founder
score 76, market score 92 and token score 90. -/
theorem end_to_end_scenario_scores :
    compute_founder_score [c8_founder] = 76 ∧
    (compute_market_analysis [c8_pitch_deck] [c8_whitepaper] [c8_website]).score = 92 ∧
    (compute_token_utility [c8_token]).score = 90 := by
  refine ⟨?_, ?_, ?_⟩
  · simp [compute_founder_score, c8_founder, founder_item_score,
      PyVal.lookupD, PyVal.lookupN, PyVal.asNum, List.find?]
    norm_num [round_eq]
  · simp [compute_market_analysis, c8_pitch_deck, c8_whitepaper, c8_website,
      max_metric, pd_has_market_section, pd_section_coverage, wp_writing_quality,
      site_info_completeness_of, PyVal.lookupD, PyVal.lookupN, PyVal.asNum,
      PyVal.truthy, List.find?]
    norm_num [round_eq]
  · simp [compute_token_utility, c8_token, token_item_quality,
      PyVal.lookupD, PyVal.lookupN, PyVal.asNum, List.find?]
    norm_num [round_eq]

/-- C9 counterexample: two runs of the pipeline over the same five collector
result lists are not identical reports, because the report embeds the
wall-clock collection timestamp taken during the run. -/
theorem pipeline_reports_differ_across_runs :
    run_full_pipeline "DemoChain" ["crypto"] "2024-01-01T00:00:00+00:00"
        (Except.ok []) (Except.ok []) (Except.ok []) (Except.ok []) (Except.ok [])
      ≠ run_full_pipeline "DemoChain" ["crypto"] "2024-01-01T00:00:05+00:00"
        (Except.ok []) (Except.ok []) (Except.ok []) (Except.ok []) (Except.ok []) := by
  intro h
  have ht := congrArg Report.collection_timestamp h
  simp [run_full_pipeline] at ht

/-- C9 amended: given the same five collector result lists, two pipeline
runs agree on every report field except the collection timestamp — the
scoring path itself is deterministic. -/
theorem pipeline_deterministic_except_timestamp
    (startup_name : String) (keywords : List String) (t1 t2 : String)
    (o1 o2 o3 o4 o5 : Except String (List DQDADataPoint)) :
    (run_full_pipeline startup_name keywords t1 o1 o2 o3 o4 o5).startup_name
      = (run_full_pipeline startup_name keywords t2 o1 o2 o3 o4 o5).startup_name ∧
    (run_full_pipeline startup_name keywords t1 o1 o2 o3 o4 o5).keywords
      = (run_full_pipeline startup_name keywords t2 o1 o2 o3 o4 o5).keywords ∧
    (run_full_pipeline startup_name keywords t1 o1 o2 o3 o4 o5).founder_score
      = (run_full_pipeline startup_name keywords t2 o1 o2 o3 o4 o5).founder_score ∧
    (run_full_pipeline startup_name keywords t1 o1 o2 o3 o4 o5).market_analysis
      = (run_full_pipeline startup_name keywords t2 o1 o2 o3 o4 o5).market_analysis ∧
    (run_full_pipeline startup_name keywords t1 o1 o2 o3 o4 o5).competition
      = (run_full_pipeline startup_name keywords t2 o1 o2 o3 o4 o5).competition ∧
    (run_full_pipeline startup_name keywords t1 o1 o2 o3 o4 o5).token_utility
      = (run_full_pipeline startup_name keywords t2 o1 o2 o3 o4 o5).token_utility ∧
    (run_full_pipeline startup_name keywords t1 o1 o2 o3 o4 o5).weaknesses
      = (run_full_pipeline startup_name keywords t2 o1 o2 o3 o4 o5).weaknesses ∧
    (run_full_pipeline startup_name keywords t1 o1 o2 o3 o4 o5).investor_fit
      = (run_full_pipeline startup_name keywords t2 o1 o2 o3 o4 o5).investor_fit ∧
    (run_full_pipeline startup_name keywords t1 o1 o2 o3 o4 o5).data_points
      = (run_full_pipeline startup_name keywords t2 o1 o2 o3 o4 o5).data_points := by
  exact ⟨rfl, rfl, rfl, rfl, rfl, rfl, rfl, rfl, rfl⟩

end DQDA
